import Mathlib

/-!
# Verification of the `rs-tiled` tileset resolution engine

A shallow embedding of `src/tileset.rs` (the tileset resolution engine of the
`rs-tiled` crate) together with theorems checking its natural-language
specification. The engine validates tileset attributes, disambiguates embedded
tileset definitions from external references, derives grid geometry, and builds
a tile registry whose completeness guarantees depend on the tileset kind.

External collaborators of the engine (the markup tokenizer, image metadata
loading, typed property parsing, the `get_attrs!`/`parse_tag!` macros from
`util.rs`, and `std::path`) are not part of the given source file; they are
modelled from the specification, as marked on each such definition.
-/

set_option autoImplicit false

namespace RsTiled

/-- Local tile identifier (`TileId = u32` in the source); modelled as `Nat`,
with the u32 range enforced at parse time by `parseU32`. -/
abbrev TileId := Nat

/-- Modelled from the spec: the first-id offset newtype `Gid` (defined outside
`src/tileset.rs`); a wrapper around an unsigned integer. -/
structure Gid where
  val : Nat
  deriving DecidableEq, Repr

/-- Modelled from the spec: the image descriptor produced by `Image::new`
(`image.rs` is not in `src/`). The tileset resolver consumes only its width
(`image.width as u32` in `calculate_columns`); `width` here is that u32 value. -/
structure Image where
  width : Nat
  deriving DecidableEq, Repr

/-- Modelled from the spec: the per-tile data parsed by `TileData::new`
(`tile.rs` is not in `src/`). Its contents are opaque to the tileset resolver,
which only ever stores it or synthesizes a default; we model it as a single
opaque payload whose default is the payload `0`. -/
structure TileData where
  payload : Nat
  deriving DecidableEq, Repr

/-- Modelled from the spec: the empty default tile entry synthesized by
`tiles.entry(tile_id).or_default()` (Rust `Default::default()`). -/
def TileData.default : TileData := ⟨0⟩

/-- Modelled from the spec: typed custom properties returned by
`parse_properties` (`properties.rs` is not in `src/`); opaque to the resolver. -/
abbrev Properties := List (String × String)

/-- Modelled from the spec: a filesystem path as a list of components
(`std::path::Path` is an external collaborator). -/
abbrev Path := List String

/-- Modelled from the spec: `Path::parent` — the containing directory, absent
when the path has no parent directory context. -/
def Path.parent (p : Path) : Option Path :=
  if p.isEmpty then none else some p.dropLast

/-- Modelled from the spec: `Path::join` — resolve a relative component against
a directory. -/
def Path.join (p : Path) (s : String) : Path := p ++ [s]

/-- The error kinds of `crate::error::Error` relevant to `tileset.rs`:
`MalformedAttributes(String)` and `PathIsNotFile` appear literally in the
source; every other kind (image, property and tile child errors, XML decoding
errors, ...) is represented opaquely by `Other`, since the resolver never
inspects those. -/
inductive Error where
  | MalformedAttributes (msg : String)
  | PathIsNotFile
  | Other (code : Nat)
  deriving DecidableEq, Repr

/-! ## The tile registry

`Tileset.tiles` is a `HashMap<TileId, TileData>`: an unordered finite map with
insert-replaces semantics. We model it as an association list with unique keys,
where `regInsert` replaces in place (key set unchanged) or appends. -/

/-- The tile registry: `HashMap<TileId, TileData>` modelled as an association
list with unique keys. -/
abbrev TileRegistry := List (TileId × TileData)

/-- `HashMap::get`. -/
def regGet : TileRegistry → TileId → Option TileData
  | [], _ => none
  | (k, v) :: rest, j => if k = j then some v else regGet rest j

/-- `HashMap::contains_key` (also the test performed by `entry(..)` before
`or_default`). -/
def regContains (m : TileRegistry) (j : TileId) : Bool :=
  (regGet m j).isSome

/-- `HashMap::insert`: replace the value at an existing key, or add a new
binding. -/
def regInsert : TileRegistry → TileId → TileData → TileRegistry
  | [], k, v => [(k, v)]
  | (k', v') :: rest, k, v =>
    if k' = k then (k, v) :: rest else (k', v') :: regInsert rest k v

/-- `HashMap::len`. -/
def regSize (m : TileRegistry) : Nat := m.length

/-- The key set of the registry. -/
def regKeys (m : TileRegistry) : List TileId := m.map Prod.fst

theorem regGet_insert (m : TileRegistry) (k : TileId) (v : TileData) (j : TileId) :
    regGet (regInsert m k v) j = if k = j then some v else regGet m j := by
  induction m with
  | nil => simp [regInsert, regGet]
  | cons hd tl ih =>
    obtain ⟨k', v'⟩ := hd
    by_cases hkk : k' = k
    · subst hkk
      by_cases hj : k' = j <;> simp [regInsert, regGet, hj]
    · by_cases hj : k' = j
      · subst hj
        have : ¬ k = k' := fun h => hkk h.symm
        simp [regInsert, regGet, hkk, this]
      · simp [regInsert, regGet, hkk, hj, ih]

theorem mem_regKeys_insert (m : TileRegistry) (k : TileId) (v : TileData) (j : TileId) :
    j ∈ regKeys (regInsert m k v) ↔ j = k ∨ j ∈ regKeys m := by
  induction m with
  | nil => simp [regInsert, regKeys]
  | cons hd tl ih =>
    obtain ⟨k', v'⟩ := hd
    by_cases hkk : k' = k
    · subst hkk
      simp [regInsert, regKeys]
    · simp only [regInsert, if_neg hkk, regKeys, List.map_cons, List.mem_cons]
      constructor
      · rintro (h | h)
        · exact Or.inr (Or.inl h)
        · rcases (ih).mp h with h' | h'
          · exact Or.inl h'
          · exact Or.inr (Or.inr h')
      · rintro (h | h | h)
        · exact Or.inr (ih.mpr (Or.inl h))
        · exact Or.inl h
        · exact Or.inr (ih.mpr (Or.inr h))

theorem regGet_isSome_iff_mem_keys (m : TileRegistry) (j : TileId) :
    (regGet m j).isSome = true ↔ j ∈ regKeys m := by
  induction m with
  | nil => simp [regGet, regKeys]
  | cons hd tl ih =>
    obtain ⟨k, v⟩ := hd
    by_cases hk : k = j
    · subst hk
      simp [regGet, regKeys]
    · have hk' : ¬ j = k := fun h => hk h.symm
      simp [regGet, regKeys, hk, hk', ih]

theorem regContains_iff_mem_keys (m : TileRegistry) (j : TileId) :
    regContains m j = true ↔ j ∈ regKeys m := by
  unfold regContains
  exact regGet_isSome_iff_mem_keys m j

theorem nodup_regKeys_insert (m : TileRegistry) (k : TileId) (v : TileData)
    (h : (regKeys m).Nodup) : (regKeys (regInsert m k v)).Nodup := by
  induction m with
  | nil => simp [regInsert, regKeys]
  | cons hd tl ih =>
    obtain ⟨k', v'⟩ := hd
    simp only [regKeys, List.map_cons, List.nodup_cons] at h
    by_cases hkk : k' = k
    · subst hkk
      have hrw : regInsert ((k', v') :: tl) k' v = (k', v) :: tl := by
        simp [regInsert]
      rw [hrw]
      simpa [regKeys, List.nodup_cons] using h
    · simp only [regInsert, if_neg hkk, regKeys, List.map_cons, List.nodup_cons]
      refine ⟨?_, ih h.2⟩
      intro hmem
      rcases (mem_regKeys_insert tl k v k').mp hmem with h' | h'
      · exact hkk h'
      · exact h.1 h'

/-! ## Attribute validation

`get_attrs!` lives in `util.rs`, which is not part of the given source; its
semantics is modelled from the spec (§4.1 AttributeValidator): attributes form
an unordered name/value list; each required field must be present and coerce,
else the whole call fails atomically with the single given error; each optional
field that is absent or fails to coerce yields an empty result silently. -/

/-- Modelled from the spec: the unordered attribute list handed to the
validator. -/
abbrev Attrs := List (String × String)

/-- Modelled from the spec: look up an attribute by name. -/
def findAttr (attrs : Attrs) (name : String) : Option String :=
  (attrs.find? (fun a => a.1 == name)).map Prod.snd

/-- Modelled from the spec: extract one field and apply its coercion; `none`
when the attribute is absent or fails to coerce. A required field with this
result `none` makes the whole `get_attrs!` call fail; an optional field with
this result `none` silently stays empty. -/
def attrAs {α : Type} (attrs : Attrs) (name : String) (coerce : String → Option α) :
    Option α :=
  (findAttr attrs name).bind coerce

/-- Accumulate decimal digits into a number; fail on a non-digit character
(`48 = '0'.toNat`). -/
def digitsToNat : List Char → Nat → Option Nat
  | [], acc => some acc
  | c :: cs, acc =>
    if c.isDigit then digitsToNat cs (acc * 10 + (c.toNat - 48)) else none

/-- The u32 coercion `|v:String| v.parse().ok()` (Rust `u32::from_str`): a
nonempty all-digit decimal string whose value fits in u32. -/
def parseU32 (s : String) : Option Nat :=
  match s.data with
  | [] => none
  | cs => (digitsToNat cs 0).bind (fun n => if n < 4294967296 then some n else none)

/-- The firstgid coercion `|v:String| v.parse().ok().map(Gid)`. -/
def parseGid (s : String) : Option Gid :=
  (parseU32 s).map Gid.mk

/-! ## The data model (`Tileset` and parse results) -/

/-- `Tileset` (src/tileset.rs): the finished immutable model. Field names and
order follow the source struct. -/
structure Tileset where
  name : String
  tile_width : Nat
  tile_height : Nat
  spacing : Nat
  margin : Nat
  tilecount : Nat
  columns : Nat
  image : Option Image
  tiles : TileRegistry
  properties : Properties
  deriving DecidableEq, Repr

/-- `EmbeddedParseResultType` (src/tileset.rs). -/
inductive EmbeddedParseResultType where
  | ExternalReference (tileset_path : Path)
  | Embedded (tileset : Tileset)
  deriving DecidableEq, Repr

/-- `EmbeddedParseResult` (src/tileset.rs). -/
structure EmbeddedParseResult where
  first_gid : Gid
  result_type : EmbeddedParseResultType
  deriving DecidableEq, Repr

/-- `TilesetProperties` (src/tileset.rs): mid-parse staging record. -/
structure TilesetProperties where
  spacing : Option Nat
  margin : Option Nat
  tilecount : Nat
  columns : Option Nat
  name : String
  tile_width : Nat
  tile_height : Nat
  root_path : Path
  deriving DecidableEq, Repr

/-! ## Child-element processing -/

/-- Decidable equality for `Except`, needed to evaluate concrete parse
results. -/
instance instDecEqExcept {ε α : Type} [DecidableEq ε] [DecidableEq α] :
    DecidableEq (Except ε α) := fun a b =>
  match a, b with
  | Except.ok x, Except.ok y =>
    if h : x = y then Decidable.isTrue (by rw [h])
    else Decidable.isFalse (by intro hc; cases hc; exact h rfl)
  | Except.ok _, Except.error _ => Decidable.isFalse (by intro hc; cases hc)
  | Except.error _, Except.ok _ => Decidable.isFalse (by intro hc; cases hc)
  | Except.error e, Except.error f =>
    if h : e = f then Decidable.isTrue (by rw [h])
    else Decidable.isFalse (by intro hc; cases hc; exact h rfl)

/-- Modelled from the spec: the sequence of child elements of one `<tileset>`
element, in document order, as dispatched by the `parse_tag!` macro (`util.rs`,
not in `src/`). Each child carries either the payload its collaborator parse
produced (`Image::new`, `parse_properties`, `TileData::new`) or the error that
parse raised; these collaborators are external to the given source. -/
inductive ChildEvent where
  | image (res : Except Error Image)
  | properties (res : Except Error Properties)
  | tile (res : Except Error (TileId × TileData))
  deriving DecidableEq, Repr

/-- The child-dispatch loop of `finish_parsing_xml` (the `parse_tag!` body,
lines 235-249): an `image` child overwrites the image slot, a `properties`
child overwrites the properties, a `tile` child is inserted into the registry
(`tiles.insert(id, tile)`); any child error aborts with that error. -/
def processChildren :
    List ChildEvent → Option Image → TileRegistry → Properties →
      Except Error (Option Image × TileRegistry × Properties)
  | [], img, tiles, props => Except.ok (img, tiles, props)
  | ChildEvent.image res :: rest, _, tiles, props =>
    match res with
    | Except.ok i => processChildren rest (some i) tiles props
    | Except.error e => Except.error e
  | ChildEvent.properties res :: rest, img, tiles, _ =>
    match res with
    | Except.ok p => processChildren rest img tiles p
    | Except.error e => Except.error e
  | ChildEvent.tile res :: rest, img, tiles, props =>
    match res with
    | Except.ok idTile => processChildren rest img (regInsert tiles idTile.1 idTile.2) props
    | Except.error e => Except.error e

/-- The densification loop of `finish_parsing_xml` (lines 254-258):
`for tile_id in 0..tilecount { tiles.entry(tile_id).or_default(); }`.
`densify t n` has run the loop body for ids `0, 1, ..., n-1` in that order. -/
def densify (t : TileRegistry) : Nat → TileRegistry
  | 0 => t
  | n + 1 =>
    let t' := densify t n
    if regContains t' n then t' else regInsert t' n TileData.default

/-- `Tileset::calculate_columns` (lines 281-295), with the source's u32
arithmetic transcribed over `Nat` (truncated subtraction, division). -/
def calculate_columns (image : Option Image) (tile_width : Nat) (margin : Nat)
    (spacing : Nat) : Except Error Nat :=
  match image with
  | some img => Except.ok ((img.width - margin + spacing) / (tile_width + spacing))
  | none =>
    Except.error (Error.MalformedAttributes "No <image> nor columns attribute in <tileset>")

/-- The columns resolution of `finish_parsing_xml` (lines 262-265):
`prop.columns.map(Ok).unwrap_or_else(|| Self::calculate_columns(..))?`. -/
def resolveColumns (explicit : Option Nat) (image : Option Image) (tile_width : Nat)
    (margin : Nat) (spacing : Nat) : Except Error Nat :=
  match explicit with
  | some c => Except.ok c
  | none => calculate_columns image tile_width margin spacing

/-- `Tileset::finish_parsing_xml` (lines 225-279): process the children, then
densify the registry exactly when an image child was seen (spritesheet kind),
default margin and spacing to 0, resolve columns, and build the `Tileset`. -/
def finish_parsing_xml (children : List ChildEvent) (prop : TilesetProperties) :
    Except Error Tileset :=
  match processChildren children none [] [] with
  | Except.error e => Except.error e
  | Except.ok (image, tiles0, properties) =>
    let tiles := if image.isSome then densify tiles0 prop.tilecount else tiles0
    let margin := prop.margin.getD 0
    let spacing := prop.spacing.getD 0
    match resolveColumns prop.columns image prop.tile_width margin spacing with
    | Except.error e => Except.error e
    | Except.ok columns =>
      Except.ok
        ⟨prop.name, prop.tile_width, prop.tile_height, spacing, margin,
          prop.tilecount, columns, image, tiles, properties⟩

/-- The `MalformedAttributes` error of `parse_xml_embedded`'s `get_attrs!`
call (line 136). -/
def embeddedAttrsError : Error :=
  Error.MalformedAttributes
    "tileset must have a firstgid, tilecount, tilewidth, and tileheight with correct types"

/-- `Tileset::parse_xml_embedded` (lines 115-160): validate the attributes
(optionals spacing/margin/columns/name, required tilecount/firstgid/tilewidth/
tileheight, all-or-nothing), resolve the root path, then finish parsing and
wrap the tileset as `Embedded` with the parsed firstgid. -/
def parse_xml_embedded (children : List ChildEvent) (attrs : Attrs) (path : Path) :
    Except Error EmbeddedParseResult :=
  match attrAs attrs "tilecount" parseU32, attrAs attrs "firstgid" parseGid,
      attrAs attrs "tilewidth" parseU32, attrAs attrs "tileheight" parseU32 with
  | some tilecount, some first_gid, some tile_width, some tile_height =>
    match Path.parent path with
    | none => Except.error Error.PathIsNotFile
    | some root_path =>
      (finish_parsing_xml children
          ⟨attrAs attrs "spacing" parseU32, attrAs attrs "margin" parseU32,
            tilecount, attrAs attrs "columns" parseU32,
            (attrAs attrs "name" some).getD "", tile_width, tile_height,
            root_path⟩).map
        (fun tileset => ⟨first_gid, EmbeddedParseResultType.Embedded tileset⟩)
  | _, _, _, _ => Except.error embeddedAttrsError

/-- The `MalformedAttributes` error of `parse_xml_reference`'s `get_attrs!`
call (line 172). -/
def referenceAttrsError : Error :=
  Error.MalformedAttributes
    "Tileset reference must have a firstgid and source with correct types"

/-- `Tileset::parse_xml_reference` (lines 162-181): require firstgid and
source (all-or-nothing), then resolve the source against the containing
document's parent directory. -/
def parse_xml_reference (attrs : Attrs) (map_path : Path) :
    Except Error EmbeddedParseResult :=
  match attrAs attrs "firstgid" parseGid, attrAs attrs "source" some with
  | some first_gid, some source =>
    match Path.parent map_path with
    | none => Except.error Error.PathIsNotFile
    | some dir =>
      Except.ok ⟨first_gid, EmbeddedParseResultType.ExternalReference (Path.join dir source)⟩
  | _, _ => Except.error referenceAttrsError

/-- `Tileset::parse_xml_in_map` (lines 99-113): attempt the embedded parse;
on failure, retry as an external reference exactly when the error kind is
`MalformedAttributes` (`matches!(err, Error::MalformedAttributes(_))`),
otherwise surface the error unchanged. -/
def parse_xml_in_map (children : List ChildEvent) (attrs : Attrs) (path : Path) :
    Except Error EmbeddedParseResult :=
  match parse_xml_embedded children attrs path with
  | Except.ok r => Except.ok r
  | Except.error err =>
    match err with
    | Error.MalformedAttributes _ => parse_xml_reference attrs path
    | _ => Except.error err

/-! ## The facade (`get_tile`, `tiles`) -/

/-- Modelled from the spec: the tile handle produced by `Tile::new(self, data)`
(`tile.rs` is not in `src/`): the registry entry composed with its
tileset-level context. -/
structure Tile where
  tileset : Tileset
  data : TileData
  deriving DecidableEq, Repr

/-- `Tileset::get_tile` (lines 85-87):
`self.tiles.get(&id).map(|data| Tile::new(self, data))`. -/
def Tileset.get_tile (ts : Tileset) (id : TileId) : Option Tile :=
  (regGet ts.tiles id).map (fun data => Tile.mk ts data)

/-- `Tileset::tiles` (lines 91-95): iterate the registry, pairing each id with
`Tile::new(self, data)`; named `tilesIter` because `tiles` is the field. -/
def Tileset.tilesIter (ts : Tileset) : List (TileId × Tile) :=
  ts.tiles.map (fun p => (p.1, Tile.mk ts p.2))

/-! ## Semantic helpers: declared tiles, last-write-wins, densification -/

/-- The tile declarations of a child sequence, in document order: the
`(id, data)` pairs handed to `tiles.insert` by the `"tile"` arm. -/
def declaredTiles (children : List ChildEvent) : List (TileId × TileData) :=
  children.filterMap (fun c =>
    match c with
    | ChildEvent.tile (Except.ok p) => some p
    | _ => none)

/-- Insert a sequence of declarations left to right (the registry effect of the
child-dispatch loop). -/
def applyDecls (ds : List (TileId × TileData)) (t : TileRegistry) : TileRegistry :=
  ds.foldl (fun m p => regInsert m p.1 p.2) t

/-- The data of the last declaration with a given id, if any. -/
def lastOf : List (TileId × TileData) → TileId → Option TileData
  | [], _ => none
  | p :: rest, j =>
    match lastOf rest j with
    | some d => some d
    | none => if p.1 = j then some p.2 else none

/-- The data of the last `<tile>` declaration with a given id among a child
sequence, if any. -/
def lastDeclared (children : List ChildEvent) (j : TileId) : Option TileData :=
  lastOf (declaredTiles children) j

theorem lastOf_mem {ds : List (TileId × TileData)} {j : TileId} {d : TileData}
    (h : lastOf ds j = some d) : (j, d) ∈ ds := by
  induction ds with
  | nil => simp [lastOf] at h
  | cons p rest ih =>
    obtain ⟨a, b⟩ := p
    simp only [lastOf] at h
    cases hrest : lastOf rest j with
    | some d' =>
      rw [hrest] at h
      cases h
      exact List.mem_cons_of_mem _ (ih hrest)
    | none =>
      rw [hrest] at h
      by_cases ha : a = j
      · rw [if_pos ha] at h
        cases h
        subst ha
        exact List.mem_cons_self _ _
      · rw [if_neg ha] at h
        cases h

theorem applyDecls_get (ds : List (TileId × TileData)) (t : TileRegistry) (j : TileId) :
    regGet (applyDecls ds t) j =
      match lastOf ds j with
      | some d => some d
      | none => regGet t j := by
  induction ds generalizing t with
  | nil => simp [applyDecls, lastOf]
  | cons p rest ih =>
    obtain ⟨a, b⟩ := p
    have hstep : applyDecls ((a, b) :: rest) t = applyDecls rest (regInsert t a b) := rfl
    rw [hstep, ih]
    simp only [lastOf]
    cases hrest : lastOf rest j with
    | some d => rfl
    | none =>
      rw [regGet_insert]
      by_cases ha : a = j <;> simp [ha]

theorem applyDecls_nodup (ds : List (TileId × TileData)) (t : TileRegistry)
    (h : (regKeys t).Nodup) : (regKeys (applyDecls ds t)).Nodup := by
  induction ds generalizing t with
  | nil => exact h
  | cons p rest ih => exact ih _ (nodup_regKeys_insert t p.1 p.2 h)

theorem densify_get (t : TileRegistry) (n : Nat) (j : TileId) :
    regGet (densify t n) j =
      match regGet t j with
      | some v => some v
      | none => if j < n then some TileData.default else none := by
  induction n generalizing j with
  | zero =>
    cases hj : regGet t j <;> simp [densify, hj]
  | succ n ih =>
    show regGet (if regContains (densify t n) n then densify t n
        else regInsert (densify t n) n TileData.default) j = _
    by_cases hc : regContains (densify t n) n = true
    · rw [if_pos hc, ih j]
      cases hj : regGet t j with
      | some v => rfl
      | none =>
        by_cases hjn : j = n
        · exfalso
          subst hjn
          unfold regContains at hc
          rw [ih j, hj] at hc
          simp at hc
        · have hiff : j < n ↔ j < n + 1 :=
            ⟨Nat.lt_succ_of_lt, fun h' => lt_of_le_of_ne (Nat.lt_succ_iff.mp h') hjn⟩
          simp [hj, hiff]
    · rw [if_neg hc, regGet_insert]
      by_cases hjn : n = j
      · subst hjn
        have hnone : regGet t n = none := by
          cases hj : regGet t n with
          | some v =>
            exfalso
            apply hc
            unfold regContains
            rw [ih n, hj]
            rfl
          | none => rfl
        simp [hnone, Nat.lt_succ_self]
      · rw [if_neg hjn, ih j]
        cases hj : regGet t j with
        | some v => rfl
        | none =>
          have hiff : j < n ↔ j < n + 1 :=
            ⟨Nat.lt_succ_of_lt, fun h' =>
              lt_of_le_of_ne (Nat.lt_succ_iff.mp h') (fun h => hjn h.symm)⟩
          simp [hj, hiff]

theorem densify_nodup (t : TileRegistry) (n : Nat)
    (h : (regKeys t).Nodup) : (regKeys (densify t n)).Nodup := by
  induction n with
  | zero => exact h
  | succ n ih =>
    show (regKeys (if regContains (densify t n) n then densify t n
        else regInsert (densify t n) n TileData.default)).Nodup
    by_cases hc : regContains (densify t n) n = true
    · rw [if_pos hc]; exact ih
    · rw [if_neg hc]; exact nodup_regKeys_insert _ _ _ ih

theorem processChildren_registry (children : List ChildEvent) (img0 : Option Image)
    (t0 : TileRegistry) (p0 : Properties) (img : Option Image) (tiles : TileRegistry)
    (props : Properties)
    (h : processChildren children img0 t0 p0 = Except.ok (img, tiles, props)) :
    tiles = applyDecls (declaredTiles children) t0 := by
  induction children generalizing img0 t0 p0 with
  | nil =>
    simp only [processChildren, Except.ok.injEq, Prod.mk.injEq] at h
    rw [← h.2.1]
    rfl
  | cons c rest ih =>
    cases c with
    | image res =>
      cases res with
      | ok i => exact ih (some i) t0 p0 h
      | error e => simp [processChildren] at h
    | properties res =>
      cases res with
      | ok p => exact ih img0 t0 p h
      | error e => simp [processChildren] at h
    | tile res =>
      cases res with
      | ok idTile =>
        have := ih img0 (regInsert t0 idTile.1 idTile.2) p0 h
        rw [this]
        show applyDecls (declaredTiles rest) _ =
          applyDecls (idTile :: declaredTiles rest) t0
        rfl
      | error e => simp [processChildren] at h

theorem regGet_applyDecls_nil (ds : List (TileId × TileData)) (j : TileId) :
    regGet (applyDecls ds []) j = lastOf ds j := by
  rw [applyDecls_get]
  cases lastOf ds j <;> rfl

/-- Inversion of a successful `finish_parsing_xml` run: the children were
processed, the registry was densified exactly when an image was present,
columns were resolved, and the fields come from `prop`. -/
theorem finish_parsing_xml_ok {children : List ChildEvent} {prop : TilesetProperties}
    {ts : Tileset} (h : finish_parsing_xml children prop = Except.ok ts) :
    ∃ tiles0 props,
      processChildren children none [] [] = Except.ok (ts.image, tiles0, props) ∧
      ts.tiles = (if ts.image.isSome then densify tiles0 prop.tilecount else tiles0) ∧
      resolveColumns prop.columns ts.image prop.tile_width (prop.margin.getD 0)
          (prop.spacing.getD 0) = Except.ok ts.columns ∧
      ts.margin = prop.margin.getD 0 ∧ ts.spacing = prop.spacing.getD 0 ∧
      ts.tilecount = prop.tilecount ∧ ts.tile_width = prop.tile_width := by
  cases hpc : processChildren children none [] [] with
  | error e =>
    exfalso
    simp only [finish_parsing_xml, hpc] at h
    exact Except.noConfusion h
  | ok out =>
    obtain ⟨img, tiles0, props⟩ := out
    simp only [finish_parsing_xml, hpc] at h
    cases hrc : resolveColumns prop.columns img prop.tile_width (prop.margin.getD 0)
        (prop.spacing.getD 0) with
    | error e =>
      exfalso
      rw [hrc] at h
      exact Except.noConfusion h
    | ok c =>
      rw [hrc] at h
      simp only [Except.ok.injEq] at h
      subst h
      exact ⟨tiles0, props, rfl, rfl, hrc, rfl, rfl, rfl, rfl⟩

/-! ## C1: spritesheet registry completeness -/

/-- C1 counterexample input: a spritesheet tileset (`<image>` child present)
with `tilecount = 2` and a single explicit tile declaration whose id is 5. -/
def c1Prop : TilesetProperties :=
  ⟨none, none, 2, none, "", 32, 32, ["m"]⟩

/-- C1 counterexample children: an image child and a tile declared with id 5. -/
def c1Children : List ChildEvent :=
  [ChildEvent.image (Except.ok ⟨64⟩), ChildEvent.tile (Except.ok (5, ⟨1⟩))]

/-- The tileset the engine builds from `c1Children`/`c1Prop`: its registry has
three entries `{5, 0, 1}`, not `tilecount = 2` entries `{0, 1}`. -/
def c1Tileset : Tileset :=
  ⟨"", 32, 32, 0, 0, 2, 2, some ⟨64⟩,
    [(5, ⟨1⟩), (0, ⟨0⟩), (1, ⟨0⟩)], []⟩

/-- **C1** is false as stated: a successful spritesheet parse with
`tilecount = 2` whose markup declares a tile with id 5 ends with a registry of
3 entries (ids `{0, 1, 5}`), not exactly `tilecount` entries with ids
`0..tilecount-1`: declarations with ids at or above `tilecount` survive in
the registry. -/
theorem C1_counterexample :
    ¬ (∀ (children : List ChildEvent) (prop : TilesetProperties) (ts : Tileset),
        finish_parsing_xml children prop = Except.ok ts →
        ts.image.isSome = true →
        regSize ts.tiles = prop.tilecount) := by
  intro hclaim
  have hrun : finish_parsing_xml c1Children c1Prop = Except.ok c1Tileset := by rfl
  have h2 := hclaim c1Children c1Prop c1Tileset hrun rfl
  have h3 : (3 : Nat) = 2 := h2
  exact absurd h3 (by decide)

/-- **C1** (amended): for every embedded tileset parse that succeeds with an
`<image>` child present (spritesheet kind) and `tilecount = N`, *provided every
explicitly declared tile id is below `N`* (in particular when there are no
declarations at all), the final registry has exactly `N` entries whose ids are
exactly `0..N-1`; every id in `[0, N)` that the markup did not declare holds
the empty default entry, and every declared id keeps the data of its (last)
declaration. -/
theorem C1_spritesheet_registry_amended
    (children : List ChildEvent) (prop : TilesetProperties) (ts : Tileset)
    (h : finish_parsing_xml children prop = Except.ok ts)
    (himg : ts.image.isSome = true)
    (hids : ∀ p ∈ declaredTiles children, p.1 < prop.tilecount) :
    regSize ts.tiles = prop.tilecount ∧
    (∀ j, regContains ts.tiles j = true ↔ j < prop.tilecount) ∧
    (∀ j, j < prop.tilecount →
      regGet ts.tiles j = some ((lastDeclared children j).getD TileData.default)) := by
  obtain ⟨tiles0, props, hpc, htiles, hrc, hm, hs, htc, htw⟩ := finish_parsing_xml_ok h
  rw [himg, if_pos rfl] at htiles
  have htiles0 : tiles0 = applyDecls (declaredTiles children) [] :=
    processChildren_registry children none [] [] ts.image tiles0 props hpc
  have hget : ∀ j, regGet ts.tiles j =
      match lastOf (declaredTiles children) j with
      | some d => some d
      | none => if j < prop.tilecount then some TileData.default else none := by
    intro j
    rw [htiles, densify_get, htiles0, regGet_applyDecls_nil]
  have hcontains : ∀ j, regContains ts.tiles j = true ↔ j < prop.tilecount := by
    intro j
    unfold regContains
    rw [hget j]
    cases hl : lastOf (declaredTiles children) j with
    | some d =>
      simp only [Option.isSome_some, true_iff]
      exact hids _ (lastOf_mem hl)
    | none =>
      by_cases hj : j < prop.tilecount <;> simp [hj]
  have hnodup : (regKeys ts.tiles).Nodup := by
    rw [htiles, htiles0]
    exact densify_nodup _ _ (applyDecls_nodup _ _ (by simp [regKeys]))
  refine ⟨?_, hcontains, ?_⟩
  · have hfin : (regKeys ts.tiles).toFinset = Finset.range prop.tilecount := by
      ext j
      rw [List.mem_toFinset, Finset.mem_range, ← regContains_iff_mem_keys]
      exact hcontains j
    have hcard : (regKeys ts.tiles).toFinset.card = (regKeys ts.tiles).length :=
      List.toFinset_card_of_nodup hnodup
    have hlen : (regKeys ts.tiles).length = prop.tilecount := by
      rw [← hcard, hfin, Finset.card_range]
    have hsz : regSize ts.tiles = (regKeys ts.tiles).length := by
      unfold regSize regKeys
      rw [List.length_map]
    rw [hsz, hlen]
  · intro j hj
    rw [hget j]
    unfold lastDeclared
    cases lastOf (declaredTiles children) j <;> simp [hj]

/-- C1 witness input: a spritesheet parse with `tilecount = 3`, one declared
tile (id 1), image width 64, tile width 32. -/
def c1wProp : TilesetProperties :=
  ⟨none, none, 3, none, "", 32, 32, ["m"]⟩

/-- C1 witness children. -/
def c1wChildren : List ChildEvent :=
  [ChildEvent.image (Except.ok ⟨64⟩), ChildEvent.tile (Except.ok (1, ⟨7⟩))]

/-- The tileset built from the C1 witness input. -/
def c1wTileset : Tileset :=
  ⟨"", 32, 32, 0, 0, 3, 2, some ⟨64⟩,
    [(1, ⟨7⟩), (0, ⟨0⟩), (2, ⟨0⟩)], []⟩

/-- Witness for the amended C1 on a concrete spritesheet parse: 3 registry
entries, id 2 synthesized as the default, id 1 keeping its declared data. -/
theorem C1_spritesheet_registry_amended_witness :
    regSize c1wTileset.tiles = 3 ∧
    (regContains c1wTileset.tiles 4 = true ↔ (4 : Nat) < 3) ∧
    regGet c1wTileset.tiles 2 = some TileData.default ∧
    regGet c1wTileset.tiles 1 = some ⟨7⟩ := by
  have hmain := C1_spritesheet_registry_amended c1wChildren c1wProp c1wTileset
    (by rfl) (by rfl) (by decide)
  refine ⟨hmain.1, hmain.2.1 4, ?_, ?_⟩
  · have := hmain.2.2 2 (by decide)
    exact this
  · have := hmain.2.2 1 (by decide)
    exact this

/-! ## C2: embedded-vs-reference dispatch -/

/-- **C2**: in `parse_xml_in_map`, a successful embedded parse is returned
as-is; an embedded failure of kind `MalformedAttributes` triggers the retry
under the external-reference schema; an embedded failure of any other kind is
returned to the caller unchanged with no reference retry. -/
theorem C2_embedded_reference_dispatch
    (children : List ChildEvent) (attrs : Attrs) (path : Path) :
    (∀ r, parse_xml_embedded children attrs path = Except.ok r →
      parse_xml_in_map children attrs path = Except.ok r) ∧
    (∀ msg, parse_xml_embedded children attrs path =
        Except.error (Error.MalformedAttributes msg) →
      parse_xml_in_map children attrs path = parse_xml_reference attrs path) ∧
    (∀ e, parse_xml_embedded children attrs path = Except.error e →
      (∀ msg, e ≠ Error.MalformedAttributes msg) →
      parse_xml_in_map children attrs path = Except.error e) := by
  refine ⟨?_, ?_, ?_⟩
  · intro r hr
    unfold parse_xml_in_map
    rw [hr]
  · intro msg hmsg
    unfold parse_xml_in_map
    rw [hmsg]
  · intro e he hne
    unfold parse_xml_in_map
    rw [he]
    cases e with
    | MalformedAttributes m => exact absurd rfl (hne m)
    | PathIsNotFile => rfl
    | Other c => rfl

/-- C2 witness: valid embedded attributes. -/
def c2AttrsOk : Attrs :=
  [("tilecount", "1"), ("firstgid", "1"), ("tilewidth", "8"), ("tileheight", "8")]

/-- C2 witness: reference-shaped attributes (no tilecount). -/
def c2AttrsRef : Attrs := [("firstgid", "5"), ("source", "shared.tsx")]

/-- C2 witness: containing document path. -/
def c2Path : Path := ["m", "a.tmx"]

/-- C2 witness: children of a well-formed spritesheet body. -/
def c2ChildrenOk : List ChildEvent := [ChildEvent.image (Except.ok ⟨8⟩)]

/-- C2 witness: children whose tile child fails with a non-attribute error. -/
def c2ChildrenErr : List ChildEvent := [ChildEvent.tile (Except.error (Error.Other 7))]

/-- C2 witness: the embedded result of the successful parse. -/
def c2Result : EmbeddedParseResult :=
  ⟨⟨1⟩, EmbeddedParseResultType.Embedded ⟨"", 8, 8, 0, 0, 1, 1, some ⟨8⟩, [(0, ⟨0⟩)], []⟩⟩

/-- Witness for C2: the three dispatch behaviours at concrete inputs. -/
theorem C2_embedded_reference_dispatch_witness :
    parse_xml_in_map c2ChildrenOk c2AttrsOk c2Path = Except.ok c2Result ∧
    parse_xml_in_map c2ChildrenOk c2AttrsRef c2Path = parse_xml_reference c2AttrsRef c2Path ∧
    parse_xml_in_map c2ChildrenErr c2AttrsOk c2Path = Except.error (Error.Other 7) :=
  ⟨(C2_embedded_reference_dispatch c2ChildrenOk c2AttrsOk c2Path).1 c2Result (by rfl),
    (C2_embedded_reference_dispatch c2ChildrenOk c2AttrsRef c2Path).2.1
      "tileset must have a firstgid, tilecount, tilewidth, and tileheight with correct types"
      (by rfl),
    (C2_embedded_reference_dispatch c2ChildrenErr c2AttrsOk c2Path).2.2 (Error.Other 7)
      (by rfl) (fun msg h => Error.noConfusion h)⟩

/-! ## C3: columns derivation -/

/-- **C3**: for every successful tileset construction, if no explicit columns
attribute was staged and an image is present, the columns field equals
`(image_width - margin + spacing) / (tile_width + spacing)` with truncating
(here: `Nat`) division; if columns was staged explicitly, that value is used
unchanged (no derivation). -/
theorem C3_columns_derivation
    (children : List ChildEvent) (prop : TilesetProperties) (ts : Tileset)
    (h : finish_parsing_xml children prop = Except.ok ts) :
    (prop.columns = none → ∀ img, ts.image = some img →
      ts.columns = (img.width - ts.margin + ts.spacing) / (prop.tile_width + ts.spacing)) ∧
    (∀ c, prop.columns = some c → ts.columns = c) := by
  obtain ⟨tiles0, props, hpc, htiles, hrc, hm, hs, htc, htw⟩ := finish_parsing_xml_ok h
  constructor
  · intro hnone img himg
    rw [hnone, himg] at hrc
    unfold resolveColumns calculate_columns at hrc
    simp only [Except.ok.injEq] at hrc
    rw [hm, hs]
    exact hrc.symm
  · intro c hc
    rw [hc] at hrc
    unfold resolveColumns at hrc
    simp only [Except.ok.injEq] at hrc
    exact hrc.symm

/-- C3 witness (a): image width 264, tile width 32, no spacing/margin. -/
def c3aProp : TilesetProperties := ⟨none, none, 1, none, "", 32, 32, ["m"]⟩

/-- C3 witness (a) children. -/
def c3aChildren : List ChildEvent := [ChildEvent.image (Except.ok ⟨264⟩)]

/-- C3 witness (a) result tileset. -/
def c3aTileset : Tileset := ⟨"", 32, 32, 0, 0, 1, 8, some ⟨264⟩, [(0, ⟨0⟩)], []⟩

/-- C3 witness (b): image width 300, tile width 32, spacing 2, margin 4. -/
def c3bProp : TilesetProperties := ⟨some 2, some 4, 1, none, "", 32, 32, ["m"]⟩

/-- C3 witness (b) children. -/
def c3bChildren : List ChildEvent := [ChildEvent.image (Except.ok ⟨300⟩)]

/-- C3 witness (b) result tileset. -/
def c3bTileset : Tileset := ⟨"", 32, 32, 2, 4, 1, 8, some ⟨300⟩, [(0, ⟨0⟩)], []⟩

/-- C3 witness (c): explicit columns 77 suppresses derivation. -/
def c3cProp : TilesetProperties := ⟨none, none, 1, some 77, "", 32, 32, ["m"]⟩

/-- C3 witness (c) result tileset. -/
def c3cTileset : Tileset := ⟨"", 32, 32, 0, 0, 1, 77, some ⟨264⟩, [(0, ⟨0⟩)], []⟩

/-- Witness for C3: 264/32/0/0 gives 8, 300/32/2/4 gives floor(298/34) = 8,
and explicit columns 77 is kept. -/
theorem C3_columns_derivation_witness :
    c3aTileset.columns = 8 ∧ c3bTileset.columns = 8 ∧ c3cTileset.columns = 77 :=
  ⟨((C3_columns_derivation c3aChildren c3aProp c3aTileset (by rfl)).1 rfl ⟨264⟩
      rfl).trans (by decide),
    ((C3_columns_derivation c3bChildren c3bProp c3bTileset (by rfl)).1 rfl ⟨300⟩
      rfl).trans (by decide),
    (C3_columns_derivation c3aChildren c3cProp c3cTileset (by rfl)).2 77 rfl⟩

/-! ## C4: collection registry exactness -/

/-- **C4**: for every successfully built collection tileset (no image), the
registry holds exactly the explicitly declared ids — lookup at any id returns
precisely the (last) declaration for that id, so no synthesized entries exist,
ids may be sparse, and `tilecount` bounds nothing. -/
theorem C4_collection_registry
    (children : List ChildEvent) (prop : TilesetProperties) (ts : Tileset)
    (h : finish_parsing_xml children prop = Except.ok ts)
    (himg : ts.image = none) :
    ∀ j, regGet ts.tiles j = lastDeclared children j := by
  obtain ⟨tiles0, props, hpc, htiles, hrc, hm, hs, htc, htw⟩ := finish_parsing_xml_ok h
  rw [himg] at htiles
  simp only [Option.isSome_none, Bool.false_eq_true, if_false] at htiles
  intro j
  rw [htiles, processChildren_registry children none [] [] ts.image tiles0 props hpc,
    regGet_applyDecls_nil]
  rfl

/-- C4 witness: collection tileset (explicit columns 0), `tilecount = 1`, one
declared tile with the out-of-range id 7. -/
def c4Prop : TilesetProperties := ⟨none, none, 1, some 0, "", 32, 32, ["m"]⟩

/-- C4 witness children. -/
def c4Children : List ChildEvent := [ChildEvent.tile (Except.ok (7, ⟨3⟩))]

/-- C4 witness result tileset. -/
def c4Tileset : Tileset := ⟨"", 32, 32, 0, 0, 1, 0, none, [(7, ⟨3⟩)], []⟩

/-- Witness for C4: the declared sparse id 7 (beyond `tilecount = 1`) is
present with its data and the undeclared id 0 is absent (not synthesized). -/
theorem C4_collection_registry_witness :
    regGet c4Tileset.tiles 7 = some ⟨3⟩ ∧ regGet c4Tileset.tiles 0 = none :=
  ⟨(C4_collection_registry c4Children c4Prop c4Tileset (by rfl) rfl 7).trans (by decide),
    (C4_collection_registry c4Children c4Prop c4Tileset (by rfl) rfl 0).trans (by decide)⟩

/-! ## C5: collection without explicit columns fails -/

/-- Shared helper: a parse whose processed body yielded no image and whose
staging record has no explicit columns fails with the structural
`MalformedAttributes` error. -/
theorem finish_no_image_no_columns
    (children : List ChildEvent) (prop : TilesetProperties)
    (tiles0 : TileRegistry) (props : Properties)
    (hpc : processChildren children none [] [] = Except.ok (none, tiles0, props))
    (hcols : prop.columns = none) :
    finish_parsing_xml children prop =
      Except.error (Error.MalformedAttributes
        "No <image> nor columns attribute in <tileset>") := by
  unfold finish_parsing_xml
  rw [hpc]
  simp only [hcols]
  rfl

/-- **C5**: every tileset parse whose (successfully processed) body contains no
`<image>` child and whose attributes staged no explicit columns value fails
with the `MalformedAttributes` structural error, returning no `Tileset`. -/
theorem C5_no_image_no_columns_fails
    (children : List ChildEvent) (prop : TilesetProperties)
    (tiles0 : TileRegistry) (props : Properties)
    (hpc : processChildren children none [] [] = Except.ok (none, tiles0, props))
    (hcols : prop.columns = none) :
    finish_parsing_xml children prop =
      Except.error (Error.MalformedAttributes
        "No <image> nor columns attribute in <tileset>") :=
  finish_no_image_no_columns children prop tiles0 props hpc hcols

/-- C5 witness: one declared tile, no image child, no columns attribute. -/
def c5Prop : TilesetProperties := ⟨none, none, 1, none, "", 32, 32, ["m"]⟩

/-- C5 witness children. -/
def c5Children : List ChildEvent := [ChildEvent.tile (Except.ok (0, ⟨1⟩))]

/-- Witness for C5 at a concrete collection parse. -/
theorem C5_no_image_no_columns_fails_witness :
    finish_parsing_xml c5Children c5Prop =
      Except.error (Error.MalformedAttributes
        "No <image> nor columns attribute in <tileset>") :=
  C5_no_image_no_columns_fails c5Children c5Prop [(0, ⟨1⟩)] [] (by rfl) rfl

/-! ## C6: external-reference resolution -/

/-- **C6**: for every reference parse taken by `parse_xml_in_map` (the embedded
attempt failed with `MalformedAttributes`) whose attributes carry a coercible
firstgid `g` and a source `s`, the result is an `ExternalReference` whose path
is the containing document's parent directory joined with `s`, paired with `g`
unchanged; if the containing document's path has no parent directory, the parse
fails with `PathIsNotFile`. -/
theorem C6_reference_resolution
    (children : List ChildEvent) (attrs : Attrs) (path : Path) (g : Gid) (s : String)
    (msg : String)
    (hemb : parse_xml_embedded children attrs path =
      Except.error (Error.MalformedAttributes msg))
    (hg : attrAs attrs "firstgid" parseGid = some g)
    (hs : attrAs attrs "source" some = some s) :
    (∀ dir, Path.parent path = some dir →
      parse_xml_in_map children attrs path =
        Except.ok ⟨g, EmbeddedParseResultType.ExternalReference (Path.join dir s)⟩) ∧
    (Path.parent path = none →
      parse_xml_in_map children attrs path = Except.error Error.PathIsNotFile) := by
  have hmap : parse_xml_in_map children attrs path = parse_xml_reference attrs path := by
    unfold parse_xml_in_map
    rw [hemb]
  constructor
  · intro dir hdir
    rw [hmap]
    unfold parse_xml_reference
    rw [hg, hs, hdir]
  · intro hnone
    rw [hmap]
    unfold parse_xml_reference
    rw [hg, hs, hnone]

/-- C6 witness: the reference attributes `{firstgid=5, source="shared.tsx"}`. -/
def c6Attrs : Attrs := [("firstgid", "5"), ("source", "shared.tsx")]

/-- C6 witness: the containing map document path. -/
def c6Path : Path := ["maps", "level1.tmx"]

/-- Witness for C6: inside `maps/level1.tmx` the reference resolves to
`maps/shared.tsx` with firstgid 5; with a parentless document path the parse
fails with `PathIsNotFile`. -/
theorem C6_reference_resolution_witness :
    parse_xml_in_map [] c6Attrs c6Path =
      Except.ok ⟨⟨5⟩, EmbeddedParseResultType.ExternalReference ["maps", "shared.tsx"]⟩ ∧
    parse_xml_in_map [] c6Attrs [] = Except.error Error.PathIsNotFile :=
  ⟨(C6_reference_resolution [] c6Attrs c6Path ⟨5⟩ "shared.tsx"
      "tileset must have a firstgid, tilecount, tilewidth, and tileheight with correct types"
      (by rfl) (by rfl) (by rfl)).1 ["maps"] (by rfl),
    (C6_reference_resolution [] c6Attrs [] ⟨5⟩ "shared.tsx"
      "tileset must have a firstgid, tilecount, tilewidth, and tileheight with correct types"
      (by rfl) (by rfl) (by rfl)).2 (by rfl)⟩

/-! ## C7: duplicate tile ids, last write wins -/

/-- **C7**: for every successful tileset parse, a local id declared by several
`<tile>` children ends up bound to the data of the last declaration in document
order — the registry entry equals that last declaration's data, and the
duplicates raise no error (the parse still succeeds). -/
theorem C7_duplicate_ids_last_wins
    (children : List ChildEvent) (prop : TilesetProperties) (ts : Tileset)
    (j : TileId) (d : TileData)
    (h : finish_parsing_xml children prop = Except.ok ts)
    (hd : lastDeclared children j = some d) :
    regGet ts.tiles j = some d := by
  obtain ⟨tiles0, props, hpc, htiles, hrc, hm, hs, htc, htw⟩ := finish_parsing_xml_ok h
  have hbase : regGet tiles0 j = some d := by
    rw [processChildren_registry children none [] [] ts.image tiles0 props hpc,
      regGet_applyDecls_nil]
    exact hd
  rw [htiles]
  by_cases himg : ts.image.isSome = true
  · rw [if_pos himg, densify_get, hbase]
  · rw [if_neg himg]
    exact hbase

/-- C7 witness: a collection tileset declaring id 1 twice, payload 5 then 9. -/
def c7Prop : TilesetProperties := ⟨none, none, 1, some 0, "", 32, 32, ["m"]⟩

/-- C7 witness children: two declarations of the same id. -/
def c7Children : List ChildEvent :=
  [ChildEvent.tile (Except.ok (1, ⟨5⟩)), ChildEvent.tile (Except.ok (1, ⟨9⟩))]

/-- C7 witness result tileset: the parse succeeded despite the duplicate. -/
def c7Tileset : Tileset := ⟨"", 32, 32, 0, 0, 1, 0, none, [(1, ⟨9⟩)], []⟩

/-- Witness for C7: id 1 holds the later payload 9, with no error. -/
theorem C7_duplicate_ids_last_wins_witness :
    regGet c7Tileset.tiles 1 = some ⟨9⟩ :=
  C7_duplicate_ids_last_wins c7Children c7Prop c7Tileset 1 ⟨9⟩ (by rfl) (by rfl)

/-! ## C8: facade queries -/

theorem tilesIter_map_fst (ts : Tileset) :
    ts.tilesIter.map Prod.fst = regKeys ts.tiles := by
  unfold Tileset.tilesIter regKeys
  rw [List.map_map]
  rfl

/-- **C8**: for every built `Tileset`: `get_tile id` is present exactly when
`id` is a key of the registry and empty otherwise; the enumeration `tiles()`
yields every registered id exactly once, and the number of pairs it yields
equals the registry size, which equals the number of ids at which `get_tile`
is present. -/
theorem C8_facade_queries
    (children : List ChildEvent) (prop : TilesetProperties) (ts : Tileset)
    (h : finish_parsing_xml children prop = Except.ok ts) :
    (∀ j, (ts.get_tile j).isSome = regContains ts.tiles j) ∧
    (∀ j, regContains ts.tiles j = false → ts.get_tile j = none) ∧
    (ts.tilesIter.map Prod.fst = regKeys ts.tiles) ∧
    (regKeys ts.tiles).Nodup ∧
    ts.tilesIter.length = regSize ts.tiles ∧
    (∀ j, regContains ts.tiles j = true ↔ j ∈ ts.tilesIter.map Prod.fst) := by
  have hnodup : (regKeys ts.tiles).Nodup := by
    obtain ⟨tiles0, props, hpc, htiles, hrc, hm, hs, htc, htw⟩ := finish_parsing_xml_ok h
    have htiles0 : tiles0 = applyDecls (declaredTiles children) [] :=
      processChildren_registry children none [] [] ts.image tiles0 props hpc
    have h0 : (regKeys tiles0).Nodup := by
      rw [htiles0]
      exact applyDecls_nodup _ _ (by simp [regKeys])
    rw [htiles]
    by_cases himg : ts.image.isSome = true
    · rw [if_pos himg]
      exact densify_nodup _ _ h0
    · rw [if_neg himg]
      exact h0
  refine ⟨?_, ?_, tilesIter_map_fst ts, hnodup, ?_, ?_⟩
  · intro j
    unfold Tileset.get_tile regContains
    cases regGet ts.tiles j <;> rfl
  · intro j hj
    unfold regContains at hj
    unfold Tileset.get_tile
    cases hg : regGet ts.tiles j with
    | none => rfl
    | some v =>
      rw [hg] at hj
      exact absurd hj (by simp)
  · unfold Tileset.tilesIter regSize
    rw [List.length_map]
  · intro j
    rw [tilesIter_map_fst ts]
    exact regContains_iff_mem_keys ts.tiles j

/-- C8 witness: a built collection tileset with a single sparse id 3. -/
def c8Prop : TilesetProperties := ⟨none, none, 2, some 4, "", 16, 16, ["m"]⟩

/-- C8 witness children. -/
def c8Children : List ChildEvent := [ChildEvent.tile (Except.ok (3, ⟨2⟩))]

/-- C8 witness result tileset. -/
def c8Tileset : Tileset := ⟨"", 16, 16, 0, 0, 2, 4, none, [(3, ⟨2⟩)], []⟩

/-- Witness for C8: presence mirrors the registry at ids 3 (inside) and 9
(outside), and the enumeration length equals the registry size. -/
theorem C8_facade_queries_witness :
    (c8Tileset.get_tile 3).isSome = regContains c8Tileset.tiles 3 ∧
    c8Tileset.get_tile 9 = none ∧
    c8Tileset.tilesIter.length = regSize c8Tileset.tiles :=
  ⟨(C8_facade_queries c8Children c8Prop c8Tileset (by rfl)).1 3,
    (C8_facade_queries c8Children c8Prop c8Tileset (by rfl)).2.1 9 (by rfl),
    (C8_facade_queries c8Children c8Prop c8Tileset (by rfl)).2.2.2.2.1⟩

/-! ## C9: retry is keyed on the error kind alone -/

/-- **C9**: the reference retry of `parse_xml_in_map` is triggered by the
error kind alone, not by where the embedded parse failed: with valid embedded
attributes whose body has no `<image>` child and no explicit columns, the
embedded attempt fails with the *structural* `MalformedAttributes` error, the
resolver still retries under the reference schema, and when no source
attribute is present the caller receives the reference-schema
`MalformedAttributes` error in place of the structural one. -/
theorem C9_structural_error_retry
    (children : List ChildEvent) (attrs : Attrs) (path : Path)
    (tc : Nat) (g : Gid) (tw th : Nat) (dir : Path)
    (tiles0 : TileRegistry) (props : Properties)
    (htc : attrAs attrs "tilecount" parseU32 = some tc)
    (hg : attrAs attrs "firstgid" parseGid = some g)
    (htw : attrAs attrs "tilewidth" parseU32 = some tw)
    (hth : attrAs attrs "tileheight" parseU32 = some th)
    (hpar : Path.parent path = some dir)
    (hpc : processChildren children none [] [] = Except.ok (none, tiles0, props))
    (hcols : attrAs attrs "columns" parseU32 = none)
    (hsrc : attrAs attrs "source" some = none) :
    parse_xml_embedded children attrs path =
      Except.error (Error.MalformedAttributes
        "No <image> nor columns attribute in <tileset>") ∧
    parse_xml_in_map children attrs path = Except.error referenceAttrsError := by
  have hfin := finish_no_image_no_columns children
    ⟨attrAs attrs "spacing" parseU32, attrAs attrs "margin" parseU32, tc,
      attrAs attrs "columns" parseU32, (attrAs attrs "name" some).getD "", tw, th,
      dir⟩ tiles0 props hpc hcols
  have hemb : parse_xml_embedded children attrs path =
      Except.error (Error.MalformedAttributes
        "No <image> nor columns attribute in <tileset>") := by
    have hred : parse_xml_embedded children attrs path =
        Except.map
          (fun tileset =>
            (⟨g, EmbeddedParseResultType.Embedded tileset⟩ : EmbeddedParseResult))
          (finish_parsing_xml children
            ⟨attrAs attrs "spacing" parseU32, attrAs attrs "margin" parseU32, tc,
              attrAs attrs "columns" parseU32, (attrAs attrs "name" some).getD "", tw,
              th, dir⟩) := by
      unfold parse_xml_embedded
      rw [htc, hg, htw, hth, hpar]
    rw [hred, hfin]
    rfl
  refine ⟨hemb, ?_⟩
  have hmap : parse_xml_in_map children attrs path = parse_xml_reference attrs path := by
    unfold parse_xml_in_map
    rw [hemb]
  rw [hmap]
  unfold parse_xml_reference
  rw [hg, hsrc]

/-- C9 witness: attributes valid for the embedded schema, with neither a
columns nor a source attribute. -/
def c9Attrs : Attrs :=
  [("tilecount", "1"), ("firstgid", "1"), ("tilewidth", "8"), ("tileheight", "8")]

/-- Witness for C9 at a concrete input: body with no children at all. -/
theorem C9_structural_error_retry_witness :
    parse_xml_embedded [] c9Attrs ["m", "a.tmx"] =
      Except.error (Error.MalformedAttributes
        "No <image> nor columns attribute in <tileset>") ∧
    parse_xml_in_map [] c9Attrs ["m", "a.tmx"] = Except.error referenceAttrsError :=
  C9_structural_error_retry [] c9Attrs ["m", "a.tmx"] 1 ⟨1⟩ 8 8 ["m"] [] []
    (by rfl) (by rfl) (by rfl) (by rfl) (by rfl) (by rfl) (by rfl) (by rfl)

/-! ## C10: well-definedness of the columns arithmetic -/

/-- Rust (debug-mode) u32 subtraction: fails on underflow. -/
def u32CheckedSub (a b : Nat) : Option Nat :=
  if b ≤ a then some (a - b) else none

/-- Rust u32 division: fails on a zero divisor (in every build mode). -/
def u32CheckedDiv (a b : Nat) : Option Nat :=
  if b = 0 then none else some (a / b)

/-- The arithmetic of `calculate_columns` (line 289),
`(image.width as u32 - margin + spacing) / (tile_width + spacing)`, with its
two u32 hazards made explicit: the subtraction fails on underflow and the
division fails on a zero divisor. -/
def calculateColumnsChecked (w tile_width margin spacing : Nat) : Option Nat :=
  (u32CheckedSub w margin).bind
    (fun d => u32CheckedDiv (d + spacing) (tile_width + spacing))

/-- **C10**: the columns derivation is total exactly under the two unchecked
preconditions: with `margin ≤ image_width` and `0 < tile_width + spacing` the
checked evaluation succeeds and agrees with the code's formula; it fails when
the subtraction underflows or when the divisor is zero; and the code itself
(`calculate_columns`) performs no check — it returns a value for every input
whatsoever. -/
theorem C10_columns_totality :
    (∀ w tw m s, m ≤ w → 0 < tw + s →
      calculateColumnsChecked w tw m s = some ((w - m + s) / (tw + s)) ∧
      calculate_columns (some ⟨w⟩) tw m s = Except.ok ((w - m + s) / (tw + s))) ∧
    (∀ w tw m s, w < m → calculateColumnsChecked w tw m s = none) ∧
    (∀ w tw m s, tw + s = 0 → calculateColumnsChecked w tw m s = none) ∧
    (∀ w tw m s, calculate_columns (some ⟨w⟩) tw m s =
      Except.ok ((w - m + s) / (tw + s))) := by
  refine ⟨?_, ?_, ?_, ?_⟩
  · intro w tw m s hm hpos
    constructor
    · unfold calculateColumnsChecked u32CheckedSub
      rw [if_pos hm]
      show u32CheckedDiv (w - m + s) (tw + s) = _
      unfold u32CheckedDiv
      rw [if_neg (Nat.pos_iff_ne_zero.mp hpos)]
    · rfl
  · intro w tw m s hlt
    unfold calculateColumnsChecked u32CheckedSub
    rw [if_neg (Nat.not_le_of_lt hlt)]
    rfl
  · intro w tw m s h0
    unfold calculateColumnsChecked u32CheckedSub
    by_cases hm : m ≤ w
    · rw [if_pos hm]
      show u32CheckedDiv (w - m + s) (tw + s) = none
      unfold u32CheckedDiv
      rw [if_pos h0]
    · rw [if_neg hm]
      rfl
  · intro w tw m s
    rfl

/-- Witness for C10: 264/32/0/0 evaluates to 8; margin 4 above width 3
underflows; tile width and spacing both 0 divide by zero; and the unchecked
code still returns a value on the divide-by-zero input. -/
theorem C10_columns_totality_witness :
    calculateColumnsChecked 264 32 0 0 = some 8 ∧
    calculateColumnsChecked 3 32 4 0 = none ∧
    calculateColumnsChecked 264 0 0 0 = none ∧
    calculate_columns (some ⟨264⟩) 0 0 0 = Except.ok ((264 - 0 + 0) / (0 + 0)) :=
  ⟨((C10_columns_totality.1 264 32 0 0 (by decide) (by decide)).1).trans (by decide),
    C10_columns_totality.2.1 3 32 4 0 (by decide),
    C10_columns_totality.2.2.1 264 0 0 0 (by decide),
    C10_columns_totality.2.2.2 264 0 0 0⟩

end RsTiled
